import Mathlib

/-!
Verification of the SandoBot strategy core
(src/bot/crates/strategy/src/bot/mod.rs).

The orchestrator (`sync_state`, `process_event`, `process_new_block`,
`process_new_tx`) is embedded directly from the source.  The collaborator
components it calls (`BlockManager`, `PoolManager`, `VictimInfo`) live in
other crates of the repository whose sources are not available here; those
are modelled from the specification, each marked as such in its doc
comment.  External calls (the chain client used by `fill_state_diffs`,
and the setup results of `sync_state`) are passed in as explicit oracle
values, and the side effects the source performs (log statements, the
per-variant `println!` dispatch, the number of collaborator invocations)
are recorded in an explicit trace so that claims about call counts and
observability can be stated.
-/

namespace SimpleMev

/-- Block header data carried by a `NewBlock` event: block number,
timestamp and base fee (the fields named by the spec's Chain Head). -/
structure BlockInfo where
  number : Nat
  timestamp : Nat
  baseFee : Nat
  deriving DecidableEq, Repr

/-- A pending transaction as consumed by the strategy: its hash and its
own declared inclusion bounds (minimum/maximum block), when declared. -/
structure Transaction where
  hash : Nat
  minBlock : Option Nat
  maxBlock : Option Nat
  deriving DecidableEq, Repr

/-- A speculative execution trace of a transaction: the set of addresses
it touches (addresses are modelled as naturals). -/
structure StateDiff where
  touched : List Nat
  deriving DecidableEq, Repr

/-- The closed pool-variant type matched exhaustively by
`process_new_tx` (the `cfmms::pool::Pool` enum as used at the
classification boundary): a constant-product (UniswapV2) pool or a
concentrated-liquidity (UniswapV3) pool, each identified by its address. -/
inductive Pool where
  | UniswapV2 (address : Nat)
  | UniswapV3 (address : Nat)
  deriving DecidableEq, Repr

/-- Address of a pool, whichever its variant. -/
def Pool.address : Pool → Nat
  | .UniswapV2 a => a
  | .UniswapV3 a => a

/-- The opaque action payload; the core only decides presence or
absence, so its contents are irrelevant. -/
inductive Action where
  | mk
  deriving DecidableEq, Repr

/-- Inbound events, as in the `Event` enum dispatched by
`process_event`. -/
inductive Event where
  | NewBlock (block : BlockInfo)
  | NewTransaction (tx : Transaction)
  deriving DecidableEq, Repr

/-- Modelled from the spec: `BlockManager` (crate `managers`, source not
available) owns the current chain head; this is the single
current-head slot. -/
structure BlockManager where
  blockInfo : BlockInfo
  deriving DecidableEq, Repr

/-- Modelled from the spec: `BlockManager::update_block_info`
"atomically replaces the tracked head — number, timestamp, and base fee
update together"; the replacement is unconditional. -/
def BlockManager.update_block_info (b : BlockInfo) (bm : BlockManager) :
    BlockManager :=
  { bm with blockInfo := b }

/-- Modelled from the spec: `BlockManager::get_next_block` is a "pure
function of the current head" giving the target block a pending
transaction is checked against; only its number, `chain_head + 1`, is
specified and consumed by the inclusion-window check. -/
def BlockManager.get_next_block (bm : BlockManager) : BlockInfo :=
  { number := bm.blockInfo.number + 1
    timestamp := bm.blockInfo.timestamp + 12
    baseFee := bm.blockInfo.baseFee }

/-- Modelled from the spec: `PoolManager` (crate `managers`, source not
available) owns the in-memory registry of tracked pools; `available`
models the infrastructure being reachable (an unavailable registry is
the spec's only source of a stage-3 lookup error). -/
structure PoolManager where
  pools : List Pool
  available : Bool
  deriving DecidableEq, Repr

/-- Modelled from the spec: `VictimInfo` wraps one pending transaction
plus the target-block constraints it was built against and the
state-diff field filled by the external call. -/
structure VictimInfo where
  tx_args : Transaction
  target_block : BlockInfo
  state_diffs : Option StateDiff
  deriving DecidableEq, Repr

/-- Modelled from the spec: `VictimInfo::new` builds the per-transaction
record from the raw transaction and the currently active target-block
constraints, with no state diff yet. -/
def VictimInfo.new (tx : Transaction) (next_block : BlockInfo) :
    VictimInfo :=
  { tx_args := tx, target_block := next_block, state_diffs := none }

/-- Modelled from the spec: `VictimInfo::can_include_in_target_block` is
the pure stage-1 predicate comparing the transaction's own declared
block bounds against the target block (`chain_head + 1`); an undeclared
bound does not constrain. -/
def VictimInfo.can_include_in_target_block (vi : VictimInfo) : Bool :=
  (match vi.tx_args.minBlock with
    | some m => decide (m ≤ vi.target_block.number)
    | none => true)
  && (match vi.tx_args.maxBlock with
    | some m => decide (vi.target_block.number ≤ m)
    | none => true)

/-- Modelled from the spec: `VictimInfo::fill_state_diffs` performs the
one external call (here the oracle `cc`) that populates the trace
field, failing distinctly when the call itself errors. -/
def VictimInfo.fill_state_diffs
    (cc : Transaction → Except String StateDiff) (vi : VictimInfo) :
    Except String VictimInfo :=
  match cc vi.tx_args with
  | .ok sd => .ok { vi with state_diffs := some sd }
  | .error e => .error e

/-- Touched addresses of a candidate, empty before the diff is filled. -/
def VictimInfo.touchedAddresses (vi : VictimInfo) : List Nat :=
  match vi.state_diffs with
  | some sd => sd.touched
  | none => []

/-- Modelled from the spec: `PoolManager::get_touched_sandwichable_pools`
returns the subset of known pools touched by the candidate's
touched-address set — an empty result, not an error, when nothing is
touched — and errors only for infrastructure failure (registry
unavailable). -/
def PoolManager.get_touched_sandwichable_pools (pm : PoolManager)
    (vi : VictimInfo) : Except String (List Pool) :=
  if pm.available then
    .ok (pm.pools.filter (fun p => vi.touchedAddresses.contains p.address))
  else
    .error "registry unavailable"

/-- The strategy's state, from `struct SandoBot` in the source: the
inception block, the sando contract address, the pool manager and the
block manager (the ethers provider is the external chain client,
passed as an oracle where used). -/
structure SandoBot where
  sando_inception_block : Nat
  sando_contract : Nat
  pool_manager : PoolManager
  block_manager : BlockManager
  deriving DecidableEq, Repr

/-- Severity of a log statement in the source. -/
inductive LogLevel where
  | info
  | error
  deriving DecidableEq, Repr

/-- The log statements `process_new_tx` can emit, one constructor per
source call site: the cyan info line for a candidate rejected by the
inclusion-window check, the two `log_error!` lines for the soft
failures, and the plain `info!` line for an empty touched-pool set. -/
inductive LogEntry where
  | infoCyanUnreachable (hash : Nat)
  | errorStateDiffs
  | errorTouchedPools
  | infoNoTouchedPools (hash : Nat)
  deriving DecidableEq, Repr

/-- Severity of each log statement, per the macro used in the source. -/
def LogEntry.level : LogEntry → LogLevel
  | .infoCyanUnreachable _ => .info
  | .errorStateDiffs => .error
  | .errorTouchedPools => .error
  | .infoNoTouchedPools _ => .info

/-- A per-variant classification dispatch performed by the `match` at
the end of `process_new_tx` (the `v2Pool` / `v3Pool` arms). -/
inductive Dispatch where
  | v2 (v2Pool : Nat)
  | v3 (v3Pool : Nat)
  deriving DecidableEq, Repr

/-- Dispatch of one touched pool by its variant, mirroring the
exhaustive `match pool` in the source loop. -/
def dispatch_of : Pool → Dispatch
  | .UniswapV2 a => .v2 a
  | .UniswapV3 a => .v3 a

/-- Observable trace of one `process_new_tx` pass: how many times the
state-diff call and the touched-pool lookup ran, which per-variant
classification dispatches happened, and which log lines were emitted. -/
structure TxTrace where
  fillCalls : Nat
  poolLookupCalls : Nat
  dispatched : List Dispatch
  logs : List LogEntry
  deriving DecidableEq, Repr

/-- The empty trace (block events invoke none of the tx-path
collaborators). -/
def TxTrace.empty : TxTrace :=
  { fillCalls := 0, poolLookupCalls := 0, dispatched := [], logs := [] }

/-- Result of `process_event`: either a normal return carrying the
strategy state after the event, the optional action, and the trace —
or the `panic!` in the block arm. -/
inductive EventResult where
  | normal (bot : SandoBot) (action : Option Action) (trace : TxTrace)
  | panicked (msg : String)
  deriving DecidableEq, Repr

/-- The strategy state of a normal result, if the event did not panic. -/
def EventResult.stateOf? : EventResult → Option SandoBot
  | .normal b _ _ => some b
  | .panicked _ => none

/-- The action of a normal result, if the event did not panic. -/
def EventResult.actionOf? : EventResult → Option (Option Action)
  | .normal _ a _ => some a
  | .panicked _ => none

/-- From the source, `process_new_block`: logs the new block and updates
the block manager with it; always returns `Ok(())` (here: the updated
state). -/
def SandoBot.process_new_block (bot : SandoBot) (event : BlockInfo) :
    Except String SandoBot :=
  .ok { bot with
          block_manager := bot.block_manager.update_block_info event }

/-- From the source, `process_new_tx`: build the victim record against
the next block, reject if it cannot be included (no collaborator call,
cyan info log), fill state diffs via the external call (soft failure:
error log, drop), look up touched sandwichable pools (soft failure:
error log, drop), return with an info log if no pool is touched,
otherwise dispatch every touched pool by its variant; always ends in
`None`. -/
def SandoBot.process_new_tx (bot : SandoBot)
    (cc : Transaction → Except String StateDiff) (tx : Transaction) :
    Option Action × TxTrace :=
  let next_block := bot.block_manager.get_next_block
  let victim_info := VictimInfo.new tx next_block
  if !victim_info.can_include_in_target_block then
    (none, { fillCalls := 0, poolLookupCalls := 0, dispatched := []
             logs := [.infoCyanUnreachable tx.hash] })
  else
    match victim_info.fill_state_diffs cc with
    | .error _ =>
        (none, { fillCalls := 1, poolLookupCalls := 0, dispatched := []
                 logs := [.errorStateDiffs] })
    | .ok victim_info =>
        match bot.pool_manager.get_touched_sandwichable_pools victim_info with
        | .error _ =>
            (none, { fillCalls := 1, poolLookupCalls := 1, dispatched := []
                     logs := [.errorTouchedPools] })
        | .ok touched_pools =>
            if touched_pools.isEmpty then
              (none, { fillCalls := 1, poolLookupCalls := 1
                       dispatched := []
                       logs := [.infoNoTouchedPools tx.hash] })
            else
              (none, { fillCalls := 1, poolLookupCalls := 1
                       dispatched := touched_pools.map dispatch_of
                       logs := [] })

/-- The block-arm continuation of `process_event`: a successful block
update yields no action; a failed one hits the `panic!("strategy is out
of sync ...")` branch. -/
def handleBlockResult : Except String SandoBot → EventResult
  | .ok bot => .normal bot none TxTrace.empty
  | .error e => .panicked ("strategy is out of sync " ++ e)

/-- From the source, `process_event`: dispatches a block event through
`process_new_block` (panicking on failure), and a transaction event
through `process_new_tx` (which never mutates the strategy state). -/
def SandoBot.process_event (bot : SandoBot)
    (cc : Transaction → Except String StateDiff) (event : Event) :
    EventResult :=
  match event with
  | .NewBlock block => handleBlockResult (bot.process_new_block block)
  | .NewTransaction tx =>
      let r := bot.process_new_tx cc tx
      .normal bot r.1 r.2

/-- Trace of one `sync_state` call: how many times each setup
collaborator was invoked. -/
structure SyncTrace where
  syncAllPoolsCalls : Nat
  setupCalls : Nat
  deriving DecidableEq, Repr

/-- From the source, `sync_state`: runs `pool_manager.sync_all_pools()`
then `block_manager.setup(provider)`, each with `?` propagation, then
returns `Ok(())`.  The two collaborator results (their sources are not
available; per the spec the first fully populates the pool registry and
the second initializes the block tracker from the chain head) are
passed as oracle values. -/
def SandoBot.sync_state (bot : SandoBot)
    (sync_all_pools : Except String PoolManager)
    (setup : Except String BlockManager) :
    Except String SandoBot × SyncTrace :=
  match sync_all_pools with
  | .error e => (.error e, { syncAllPoolsCalls := 1, setupCalls := 0 })
  | .ok pm =>
      match setup with
      | .error e =>
          (.error e, { syncAllPoolsCalls := 1, setupCalls := 1 })
      | .ok bm =>
          (.ok { bot with pool_manager := pm, block_manager := bm },
           { syncAllPoolsCalls := 1, setupCalls := 1 })

/-- Unfolding lemma: the victim record is built from the raw transaction. -/
theorem VictimInfo.new_tx_args (tx : Transaction) (nb : BlockInfo) :
    (VictimInfo.new tx nb).tx_args = tx := rfl

/-- Unfolding lemma: filling the diff keeps the raw transaction and the
target block and stores the returned diff. -/
theorem fill_state_diffs_ok (cc : Transaction → Except String StateDiff)
    (vi : VictimInfo) (sd : StateDiff) (h : cc vi.tx_args = .ok sd) :
    vi.fill_state_diffs cc =
      .ok { vi with state_diffs := some sd } := by
  simp [VictimInfo.fill_state_diffs, h]

/-- Unfolding lemma: an erroring chain client makes the fill fail. -/
theorem fill_state_diffs_error (cc : Transaction → Except String StateDiff)
    (vi : VictimInfo) (e : String) (h : cc vi.tx_args = .error e) :
    vi.fill_state_diffs cc = .error e := by
  simp [VictimInfo.fill_state_diffs, h]

/-- C1: a transaction event whose victim candidate fails the
inclusion-window check against `chain_head + 1` yields no action and a
trace with zero state-diff calls — `fill_state_diffs` is never invoked
for it — only the cyan info log of the rejection. -/
theorem c1_unreachable_tx_rejected_without_state_diff
    (bot : SandoBot) (cc : Transaction → Except String StateDiff)
    (tx : Transaction)
    (h : (VictimInfo.new tx
        bot.block_manager.get_next_block).can_include_in_target_block
        = false) :
    bot.process_event cc (.NewTransaction tx) =
      .normal bot none
        { fillCalls := 0, poolLookupCalls := 0, dispatched := []
          logs := [.infoCyanUnreachable tx.hash] } := by
  simp [SandoBot.process_event, SandoBot.process_new_tx, h]

/-- Witness for C1: with the head at block 100, a transaction declaring
a maximum inclusion block of 100 fails the check against target block
101 and is rejected with no state-diff call. -/
theorem c1_witness :
    (VictimInfo.new ⟨7, none, some 100⟩
        (BlockManager.get_next_block
          ⟨⟨100, 0, 5⟩⟩)).can_include_in_target_block = false ∧
    SandoBot.process_event ⟨0, 0, ⟨[], true⟩, ⟨⟨100, 0, 5⟩⟩⟩
        (fun _ => .ok ⟨[]⟩) (.NewTransaction ⟨7, none, some 100⟩) =
      .normal ⟨0, 0, ⟨[], true⟩, ⟨⟨100, 0, 5⟩⟩⟩ none
        { fillCalls := 0, poolLookupCalls := 0, dispatched := []
          logs := [.infoCyanUnreachable 7] } :=
  ⟨by decide,
   c1_unreachable_tx_rejected_without_state_diff
     ⟨0, 0, ⟨[], true⟩, ⟨⟨100, 0, 5⟩⟩⟩ (fun _ => .ok ⟨[]⟩)
     ⟨7, none, some 100⟩ (by decide)⟩

/-- C2: `process_new_tx` returns `None` on every path — whatever the
inclusion check, the chain client's answer and the touched pools, the
strategy never produces an action for a transaction event. -/
theorem c2_process_new_tx_always_none
    (bot : SandoBot) (cc : Transaction → Except String StateDiff)
    (tx : Transaction) :
    (bot.process_new_tx cc tx).1 = none := by
  unfold SandoBot.process_new_tx
  dsimp only
  split
  · rfl
  · split
    · rfl
    · split
      · rfl
      · split
        · rfl
        · rfl

/-- C3: soft failures drop the candidate without an action and without
reaching later stages.  If the state-diff call errors, it ran exactly
once, the pool lookup and classification never ran, and the error was
logged; if the pool lookup errors (registry unavailable), each
collaborator ran exactly once, classification never ran, and the error
was logged.  Neither call is retried. -/
theorem c3_soft_failures_drop_candidate
    (bot : SandoBot) (tx : Transaction)
    (h : (VictimInfo.new tx
        bot.block_manager.get_next_block).can_include_in_target_block
        = true) :
    (∀ (cc : Transaction → Except String StateDiff) (e : String),
      cc tx = .error e →
      bot.process_event cc (.NewTransaction tx) =
        .normal bot none
          { fillCalls := 1, poolLookupCalls := 0, dispatched := []
            logs := [.errorStateDiffs] }) ∧
    (∀ (cc : Transaction → Except String StateDiff) (sd : StateDiff),
      cc tx = .ok sd → bot.pool_manager.available = false →
      bot.process_event cc (.NewTransaction tx) =
        .normal bot none
          { fillCalls := 1, poolLookupCalls := 1, dispatched := []
            logs := [.errorTouchedPools] }) := by
  constructor
  · intro cc e hcc
    have hfill := fill_state_diffs_error cc
      (VictimInfo.new tx bot.block_manager.get_next_block) e hcc
    simp [SandoBot.process_event, SandoBot.process_new_tx, h, hfill]
  · intro cc sd hcc hav
    have hfill := fill_state_diffs_ok cc
      (VictimInfo.new tx bot.block_manager.get_next_block) sd hcc
    simp [SandoBot.process_event, SandoBot.process_new_tx, h, hfill,
      PoolManager.get_touched_sandwichable_pools, hav]

/-- Witness for C3: an erroring chain client drops the candidate after
one state-diff call, and an unavailable registry drops it after one
lookup, each with its error log and no dispatch. -/
theorem c3_witness :
    SandoBot.process_event ⟨0, 0, ⟨[], true⟩, ⟨⟨100, 0, 5⟩⟩⟩
        (fun _ => .error "boom") (.NewTransaction ⟨7, none, none⟩) =
      .normal ⟨0, 0, ⟨[], true⟩, ⟨⟨100, 0, 5⟩⟩⟩ none
        { fillCalls := 1, poolLookupCalls := 0, dispatched := []
          logs := [.errorStateDiffs] } ∧
    SandoBot.process_event ⟨0, 0, ⟨[], false⟩, ⟨⟨100, 0, 5⟩⟩⟩
        (fun _ => .ok ⟨[1]⟩) (.NewTransaction ⟨7, none, none⟩) =
      .normal ⟨0, 0, ⟨[], false⟩, ⟨⟨100, 0, 5⟩⟩⟩ none
        { fillCalls := 1, poolLookupCalls := 1, dispatched := []
          logs := [.errorTouchedPools] } :=
  ⟨(c3_soft_failures_drop_candidate ⟨0, 0, ⟨[], true⟩, ⟨⟨100, 0, 5⟩⟩⟩
      ⟨7, none, none⟩ (by decide)).1 (fun _ => .error "boom") "boom" rfl,
   (c3_soft_failures_drop_candidate ⟨0, 0, ⟨[], false⟩, ⟨⟨100, 0, 5⟩⟩⟩
      ⟨7, none, none⟩ (by decide)).2 (fun _ => .ok ⟨[1]⟩) ⟨[1]⟩ rfl rfl⟩

/-- C4: a block event updates the block manager with exactly that block
and yields no action; and the block arm of `process_event` maps any
failed block update to the out-of-sync panic rather than continuing. -/
theorem c4_block_event_updates_and_failure_panics
    (bot : SandoBot) (cc : Transaction → Except String StateDiff)
    (b : BlockInfo) :
    bot.process_event cc (.NewBlock b) =
      .normal
        { bot with block_manager := bot.block_manager.update_block_info b }
        none TxTrace.empty ∧
    ∀ e : String,
      handleBlockResult (.error e) =
        .panicked ("strategy is out of sync " ++ e) :=
  ⟨rfl, fun _ => rfl⟩

/-- C5: `process_new_block` returns `Ok` for every block, so every block
event ends in the normal no-action result — the panic branch of the
block arm is unreachable. -/
theorem c5_block_panic_unreachable
    (bot : SandoBot) (cc : Transaction → Except String StateDiff)
    (b : BlockInfo) :
    bot.process_new_block b =
      .ok { bot with
              block_manager := bot.block_manager.update_block_info b } ∧
    bot.process_event cc (.NewBlock b) =
      .normal
        { bot with block_manager := bot.block_manager.update_block_info b }
        none TxTrace.empty :=
  ⟨rfl, rfl⟩

/-- C6: a transaction whose filled state diff touches no registered pool
yields no action, performs no per-variant dispatch, and logs the
defined negative outcome at info level — a level distinct from the
error level carried by both soft-failure logs. -/
theorem c6_no_touched_pools_is_info_outcome
    (bot : SandoBot) (cc : Transaction → Except String StateDiff)
    (tx : Transaction) (sd : StateDiff)
    (h : (VictimInfo.new tx
        bot.block_manager.get_next_block).can_include_in_target_block
        = true)
    (hcc : cc tx = .ok sd)
    (hlookup : bot.pool_manager.get_touched_sandwichable_pools
        { VictimInfo.new tx bot.block_manager.get_next_block with
            state_diffs := some sd } = .ok []) :
    bot.process_event cc (.NewTransaction tx) =
      .normal bot none
        { fillCalls := 1, poolLookupCalls := 1, dispatched := []
          logs := [.infoNoTouchedPools tx.hash] } ∧
    LogEntry.level (.infoNoTouchedPools tx.hash) = .info ∧
    LogEntry.level .errorStateDiffs = .error ∧
    LogEntry.level .errorTouchedPools = .error := by
  refine ⟨?_, rfl, rfl, rfl⟩
  have hfill := fill_state_diffs_ok cc
    (VictimInfo.new tx bot.block_manager.get_next_block) sd hcc
  simp [SandoBot.process_event, SandoBot.process_new_tx, h, hfill, hlookup]

/-- Witness for C6: a registry tracking pool 9 and a transaction
touching only address 1 produce the info-logged empty outcome. -/
theorem c6_witness :
    SandoBot.process_event ⟨0, 0, ⟨[.UniswapV2 9], true⟩, ⟨⟨100, 0, 5⟩⟩⟩
        (fun _ => .ok ⟨[1]⟩) (.NewTransaction ⟨7, none, none⟩) =
      .normal ⟨0, 0, ⟨[.UniswapV2 9], true⟩, ⟨⟨100, 0, 5⟩⟩⟩ none
        { fillCalls := 1, poolLookupCalls := 1, dispatched := []
          logs := [.infoNoTouchedPools 7] } ∧
    LogEntry.level (.infoNoTouchedPools 7) = .info ∧
    LogEntry.level .errorStateDiffs = .error ∧
    LogEntry.level .errorTouchedPools = .error :=
  c6_no_touched_pools_is_info_outcome
    ⟨0, 0, ⟨[.UniswapV2 9], true⟩, ⟨⟨100, 0, 5⟩⟩⟩
    (fun _ => .ok ⟨[1]⟩) ⟨7, none, none⟩ ⟨[1]⟩
    (by decide) rfl rfl

/-- C7: every pool of a non-empty touched set is dispatched through its
own variant's arm: the trace's dispatch list is exactly the variant-wise
image of the touched set, so a touched constant-product pool and a
touched concentrated-liquidity pool each appear through their
respective classification path and no touched pool is skipped. -/
theorem c7_variant_dispatch_exhaustive
    (bot : SandoBot) (cc : Transaction → Except String StateDiff)
    (tx : Transaction) (sd : StateDiff) (ps : List Pool)
    (h : (VictimInfo.new tx
        bot.block_manager.get_next_block).can_include_in_target_block
        = true)
    (hcc : cc tx = .ok sd)
    (hlookup : bot.pool_manager.get_touched_sandwichable_pools
        { VictimInfo.new tx bot.block_manager.get_next_block with
            state_diffs := some sd } = .ok ps)
    (hne : ps.isEmpty = false) :
    bot.process_event cc (.NewTransaction tx) =
      .normal bot none
        { fillCalls := 1, poolLookupCalls := 1
          dispatched := ps.map dispatch_of, logs := [] } ∧
    ∀ p ∈ ps, dispatch_of p ∈ ps.map dispatch_of := by
  refine ⟨?_, fun p hp => List.mem_map_of_mem dispatch_of hp⟩
  have hfill := fill_state_diffs_ok cc
    (VictimInfo.new tx bot.block_manager.get_next_block) sd hcc
  simp [SandoBot.process_event, SandoBot.process_new_tx, h, hfill,
    hlookup, hne]

/-- Witness for C7: a transaction touching a tracked UniswapV2 pool at
address 1 and a tracked UniswapV3 pool at address 2 is dispatched
through both variant arms. -/
theorem c7_witness :
    SandoBot.process_event
        ⟨0, 0, ⟨[.UniswapV2 1, .UniswapV3 2], true⟩, ⟨⟨100, 0, 5⟩⟩⟩
        (fun _ => .ok ⟨[1, 2]⟩) (.NewTransaction ⟨7, none, none⟩) =
      .normal ⟨0, 0, ⟨[.UniswapV2 1, .UniswapV3 2], true⟩, ⟨⟨100, 0, 5⟩⟩⟩
        none
        { fillCalls := 1, poolLookupCalls := 1
          dispatched := [.v2 1, .v3 2], logs := [] } ∧
    Dispatch.v2 1 ∈ [Dispatch.v2 1, Dispatch.v3 2] ∧
    Dispatch.v3 2 ∈ [Dispatch.v2 1, Dispatch.v3 2] := by
  have hmain := c7_variant_dispatch_exhaustive
    ⟨0, 0, ⟨[.UniswapV2 1, .UniswapV3 2], true⟩, ⟨⟨100, 0, 5⟩⟩⟩
    (fun _ => .ok ⟨[1, 2]⟩) ⟨7, none, none⟩ ⟨[1, 2]⟩
    [.UniswapV2 1, .UniswapV3 2]
    (by decide) rfl rfl (by decide)
  exact ⟨hmain.1,
    hmain.2 (.UniswapV2 1) (by decide),
    hmain.2 (.UniswapV3 2) (by decide)⟩

/-- C8: `sync_state` succeeds exactly when the full pool sync and then
the block-tracker setup both succeed, in that order; a pool-sync
failure propagates immediately with the setup never attempted, and a
setup failure propagates after the sync, so no partially-synced state
is ever returned as success. -/
theorem c8_sync_state_all_or_nothing (bot : SandoBot) :
    (∀ (e : String) (setup : Except String BlockManager),
      bot.sync_state (.error e) setup =
        (.error e, { syncAllPoolsCalls := 1, setupCalls := 0 })) ∧
    (∀ (pm : PoolManager) (e : String),
      bot.sync_state (.ok pm) (.error e) =
        (.error e, { syncAllPoolsCalls := 1, setupCalls := 1 })) ∧
    (∀ (pm : PoolManager) (bm : BlockManager),
      bot.sync_state (.ok pm) (.ok bm) =
        (.ok { bot with pool_manager := pm, block_manager := bm },
         { syncAllPoolsCalls := 1, setupCalls := 1 })) :=
  ⟨fun _ _ => rfl, fun _ _ => rfl, fun _ _ => rfl⟩

/-- C9: a transaction event leaves the orchestrator's persistent state —
the block manager's chain head and the pool registry — exactly as it
was: the state carried by the result is the pre-event state. -/
theorem c9_tx_event_preserves_state
    (bot : SandoBot) (cc : Transaction → Except String StateDiff)
    (tx : Transaction) :
    (bot.process_event cc (.NewTransaction tx)).stateOf? = some bot :=
  rfl

/-- C10 counterexample: with the tracked head at block 100, a block
update numbered 99 is applied as-is — the head becomes 99, strictly
below the previous head — so the update is neither rejected nor fatal
and head monotonicity is broken. -/
theorem c10_counterexample :
    (BlockManager.update_block_info ⟨99, 12, 5⟩ ⟨⟨100, 0, 5⟩⟩).blockInfo
      = ⟨99, 12, 5⟩ ∧
    (BlockManager.update_block_info ⟨99, 12, 5⟩
        ⟨⟨100, 0, 5⟩⟩).blockInfo.number < 100 := by
  decide

/-- C10 amended: `update_block_info` deterministically and
unconditionally replaces the tracked head with the incoming block, so
the head number strictly increases exactly across those updates whose
incoming number exceeds the current head; a non-increasing update is
applied the same way, replacing the head. -/
theorem c10_amended_unconditional_replace
    (bm : BlockManager) (b : BlockInfo) :
    (bm.update_block_info b).blockInfo = b ∧
    (bm.blockInfo.number < b.number →
      bm.blockInfo.number < (bm.update_block_info b).blockInfo.number) :=
  ⟨rfl, fun h => h⟩

/-- Witness for C10: applying block 101 over head 100 replaces the head
with block 101 and strictly increases the head number. -/
theorem c10_witness :
    (BlockManager.update_block_info ⟨101, 12, 5⟩ ⟨⟨100, 0, 5⟩⟩).blockInfo
      = ⟨101, 12, 5⟩ ∧
    (100 : Nat) <
      (BlockManager.update_block_info ⟨101, 12, 5⟩
        ⟨⟨100, 0, 5⟩⟩).blockInfo.number :=
  ⟨(c10_amended_unconditional_replace ⟨⟨100, 0, 5⟩⟩ ⟨101, 12, 5⟩).1,
   (c10_amended_unconditional_replace ⟨⟨100, 0, 5⟩⟩ ⟨101, 12, 5⟩).2
     (by decide)⟩

end SimpleMev
